import Mathlib

/-!
Verification of the training-orchestration core of `h-baselines`
(`hbaselines/algorithms/off_policy.py`, class `OffPolicyRLAlgorithm`).

The Python source is shallowly embedded: each Lean definition below mirrors
one fragment of the source file (line numbers are given in the doc comments).
Machine integers are modelled as `Nat`/`Int` (Python integers are unbounded),
observations and rewards as `List ℚ` / `ℚ`, fallible code as `Except`.
-/

namespace OffPolicy

/-! ### Rollout batch partitioning (`_collect_samples`, lines 719-745)

`run_steps = run_steps or self.nb_rollout_steps`
`n_itr = math.ceil(run_steps / self.num_cpus)`
`for itr in range(n_itr):`
`    n_steps = self.num_cpus if itr < n_itr - 1`
`        else run_steps - n_itr * (self.num_cpus - 1)`
and per iteration `self.total_steps += n_steps`, with the batch dispatching
`self._collect_sample(env=self.env[env_num], ...) for env_num in range(n_steps)`.
-/

/-- Number of batch iterations: `math.ceil(run_steps / num_cpus)` (line 720).
For positive `num_cpus` this is the ceiling division. -/
def n_itr (run_steps num_cpus : ℕ) : ℕ :=
  (run_steps + num_cpus - 1) / num_cpus

/-- Size of the batch dispatched on iteration `itr` (lines 722-723):
`num_cpus` on every iteration but the last, and
`run_steps - n_itr * (num_cpus - 1)` on the last.
The value is an integer because the Python expression may be negative. -/
def batchSize (run_steps num_cpus itr : ℕ) : ℤ :=
  if itr < n_itr run_steps num_cpus - 1 then (num_cpus : ℤ)
  else (run_steps : ℤ) - (n_itr run_steps num_cpus : ℤ) * ((num_cpus : ℤ) - 1)

/-- The sequence of batch sizes produced by the loop `for itr in range(n_itr)`
(line 721); `total_steps` is incremented by each entry in turn (line 745),
and the batch of iteration `itr` indexes environment slots
`0, ..., batchSize - 1` (line 737). -/
def batchSizes (run_steps num_cpus : ℕ) : List ℤ :=
  (List.range (n_itr run_steps num_cpus)).map (batchSize run_steps num_cpus)

/-! ### Update scheduler (`_train`, lines 925-951) -/

/-- The decision record passed to `policy_tf.update` on one training step.
`update_meta` / `update_meta_actor` are `none` for non-hierarchical policies
(the `kwargs = {}` branch, line 944). -/
structure UpdateDecision where
  update_actor : Bool
  update_meta : Option Bool
  update_meta_actor : Option Bool
  deriving DecidableEq, Repr

/-- Scheduled-update decision for training step `t_train` (lines 931-951):
`update = (total_steps + t_train) % actor_update_freq == 0` and, when the
policy is goal-conditioned (hierarchical),
`update_meta = (total_steps + t_train) % meta_update_freq == 0`,
`update_meta_actor = (total_steps + t_train) % (meta_update_freq * actor_update_freq) == 0`. -/
def decideUpdates (total_steps t_train actor_update_freq meta_update_freq : ℕ)
    (hierarchical : Bool) : UpdateDecision :=
  let update := decide ((total_steps + t_train) % actor_update_freq = 0)
  if hierarchical then
    { update_actor := update
      update_meta :=
        some (decide ((total_steps + t_train) % meta_update_freq = 0))
      update_meta_actor :=
        some (decide
          ((total_steps + t_train) % (meta_update_freq * actor_update_freq) = 0)) }
  else
    { update_actor := update, update_meta := none, update_meta_actor := none }

/-- The sequence of update calls issued by one `_train` invocation
(`for t_train in range(self.nb_train_steps)`, line 931): one call to
`policy_tf.update` per training step, so the critic is updated on every
training step. -/
def trainCalls (total_steps nb_train_steps actor_update_freq meta_update_freq : ℕ)
    (hierarchical : Bool) : List UpdateDecision :=
  (List.range nb_train_steps).map
    (fun t => decideUpdates total_steps t actor_update_freq meta_update_freq hierarchical)

/-! ### Periodic evaluation / save thresholds (`learn`, lines 629-631, 669-671)

`if (self.total_steps - eval_steps_incr) >= eval_interval:`
`    eval_steps_incr += eval_interval`
and the identical pattern for `save_steps_incr` / `save_interval`.
-/

/-- One end-of-epoch interval check: fires iff the elapsed steps since the
running increment reach the interval, and on firing advances the increment by
exactly the interval (lines 630-631 for evaluation, 669-670 for saving).
Returns (fired, new increment). -/
def intervalCheck (total_steps incr interval : ℤ) : Bool × ℤ :=
  if total_steps - incr ≥ interval then (true, incr + interval)
  else (false, incr)

/-! ### Horizon resolution (`__init__`, lines 389-397)

`if hasattr(self.env[0], "horizon"): self.horizon = self.env[0].horizon`
`elif hasattr(self.env[0], "_max_episode_steps"): ...`
`elif hasattr(self.env[0], "env_params"): self.horizon = ....horizon`
`else: raise ValueError("Horizon attribute not found.")`
-/

/-- Resolution of the time horizon at construction (lines 389-397). Each
argument is the corresponding optional attribute of the training environment;
when none is present the constructor raises `ValueError`. -/
def resolveHorizon (horizon_attr max_episode_steps_attr env_params_horizon :
    Option ℤ) : Except String ℤ :=
  match horizon_attr with
  | some h => Except.ok h
  | none =>
    match max_episode_steps_attr with
    | some m => Except.ok m
    | none =>
      match env_params_horizon with
      | some h => Except.ok h
      | none => Except.error "Horizon attribute not found."

/-! ### Construction-time parallelism check (`__init__`, lines 329-358)

`assert num_cpus <= nb_rollout_steps, ...` (line 330) runs before any call to
`create_env` (the evaluation environment at line 340, the training
environments at lines 356-358).
-/

/-- Construction of the algorithm object, restricted to the parallelism
assertion and environment creation it guards (lines 329-358). On success the
result carries the indices of the training environments created
(`for env_num in range(num_cpus)`); on failure the assertion fires before any
environment is created, so the error branch carries none. -/
def algInit (num_cpus nb_rollout_steps : ℕ) : Except String (List ℕ) :=
  if num_cpus ≤ nb_rollout_steps then Except.ok (List.range num_cpus)
  else Except.error "num_cpus must be less than or equal to nb_rollout_steps"

/-! ### Observations and fingerprinting (`_collect_sample`, lines 793-923) -/

/-- Observation: a numeric array, modelled as a list of rationals. -/
abbrev Obs := List ℚ

/-- Modelled from the spec: the fingerprint vector appended by
`add_fingerprint` (defined in `hbaselines/algorithms/utils.py`, which is not
part of the sources at hand). Section 4.1 of the spec describes it as a
deterministic low-dimensional vector, a monotonic function of
`steps / total_steps` clipped to a configured numeric range. -/
def fingerprintVec (steps total_steps : ℕ) : List ℚ :=
  [min 5 (5 * (steps : ℚ) / (total_steps : ℚ))]

/-- Modelled from the spec: `add_fingerprint(obs, steps, total_steps, enabled)`
(imported from `hbaselines.algorithms.utils`, not part of the sources at
hand). Section 4.1: identity when `enabled` is false; when true, concatenates
the deterministic time-based fingerprint vector onto the last axis of the
observation. -/
def add_fingerprint (obs : Obs) (steps total_steps : ℕ) (enabled : Bool) : Obs :=
  if enabled then obs ++ fingerprintVec steps total_steps else obs

/-- Post-step observation handling inside `_collect_sample` (lines 901-916).
`terminal_obs` is the (already normalized) observation returned by
`env.step`, `reset_raw` the normalized observation `env.reset()` would
return. The source reads:

`obs = add_fingerprint(obs, steps, total_steps, use_fingerprints)`
`if done:`
`    reset_obs = env.reset()`
`    reset_obs, reset_all_obs = get_obs(reset_obs)`
`    # Add the fingerprint term, if needed.`
`    obs = add_fingerprint(obs, steps, total_steps, use_fingerprints)`

and the return value packages `"obs": obs if not done else (obs, reset_obs)`.
The result is the pair stored in the returned dict: `(obs, some reset_obs)`
when done, `(obs, none)` otherwise. -/
def collectSampleObs (terminal_obs reset_raw : Obs) (steps total_steps : ℕ)
    (use_fingerprints done : Bool) : Obs × Option Obs :=
  let obs := add_fingerprint terminal_obs steps total_steps use_fingerprints
  if done then
    let reset_obs := reset_raw
    let obs := add_fingerprint obs steps total_steps use_fingerprints
    (obs, some reset_obs)
  else
    (obs, none)

/-! ### Per-batch bookkeeping (`_collect_samples`, lines 744-791) -/

/-- The dict returned by `_collect_sample` (lines 915-923), as consumed by the
bookkeeping loop. `_collect_sample` returns `"obs": obs` when not done and
`"obs": (obs, reset_obs)` when done, so `obs_terminal` models `obs` (or the
first pair component) and `obs_reset` the second pair component; likewise for
`all_obs`. -/
structure CollectResult where
  env_num : ℕ
  context : Option ℚ
  action : List ℚ
  reward : ℚ
  done : Bool
  obs_terminal : Obs
  obs_reset : Obs
  all_obs_terminal : Option Obs
  all_obs_reset : Option Obs
  deriving Repr

/-- A transition as forwarded by `_store_transition` (lines 471-530) to
`policy_tf.store_transition`: the reward has been scaled by `reward_scale`
(line 516). -/
structure StoredTransition where
  obs0 : Obs
  context0 : Option ℚ
  action : List ℚ
  reward : ℚ
  obs1 : Obs
  context1 : Option ℚ
  terminal1 : Bool
  is_final_step : Bool
  all_obs0 : Option Obs
  all_obs1 : Option Obs
  env_num : ℕ
  deriving Repr

/-- The mutable training counters of `OffPolicyRLAlgorithm` touched by the
rollout collector and the training loop (initialised at lines 404-412).
`episode_rew_history` models the `deque(maxlen=100)`. -/
structure AlgState where
  obs : List Obs
  all_obs : List (Option Obs)
  episode_step : List ℕ
  episode_reward : List ℚ
  epoch_episode_steps : List ℕ
  epoch_episode_rewards : List ℚ
  episode_rew_history : List ℚ
  epoch_episodes : ℕ
  episodes : ℕ
  total_steps : ℕ
  deriving Repr

/-- Append to the rolling history: `deque(maxlen=100).append` keeps only the
most recent 100 entries (line 411). -/
def dequeAppend (d : List ℚ) (x : ℚ) : List ℚ :=
  let d1 := d ++ [x]
  if d1.length ≤ 100 then d1 else d1.drop (d1.length - 100)

/-- Serial per-result bookkeeping of `_collect_samples` (lines 747-791) for
one entry `ret_i` of the batch, given the resolved `horizon` and
`reward_scale`. Mirrors, in order: the episode step/reward increments (lines
757-762), the `_store_transition` call (lines 765-777, including the reward
scaling of line 516 and `is_final_step = (self.episode_step[num] >= self.horizon - 1)`
of line 773), the observation update (lines 780-781, `obs[1] if done else obs`),
and the episode-done block (lines 784-791). Returns the new state and the
transition handed to the replay buffer. -/
def processResult (horizon : ℕ) (reward_scale : ℚ) (s : AlgState)
    (r : CollectResult) : AlgState × StoredTransition :=
  let num := r.env_num
  let es := s.episode_step.getD num 0 + 1
  let er := s.episode_reward.getD num 0 + r.reward
  let s1 : AlgState :=
    { s with episode_step := s.episode_step.set num es
             episode_reward := s.episode_reward.set num er }
  let tr : StoredTransition :=
    { obs0 := s.obs.getD num []
      context0 := r.context
      action := r.action
      reward := reward_scale * r.reward
      obs1 := r.obs_terminal
      context1 := r.context
      terminal1 := r.done
      is_final_step := decide ((es : ℤ) ≥ (horizon : ℤ) - 1)
      all_obs0 := s.all_obs.getD num none
      all_obs1 := r.all_obs_terminal
      env_num := num }
  let s2 : AlgState :=
    { s1 with obs := s1.obs.set num (if r.done then r.obs_reset else r.obs_terminal)
              all_obs := s1.all_obs.set num
                (if r.done then r.all_obs_reset else r.all_obs_terminal) }
  let s3 : AlgState :=
    if r.done then
      { s2 with epoch_episode_rewards := s2.epoch_episode_rewards ++ [er]
                episode_rew_history := dequeAppend s2.episode_rew_history er
                epoch_episode_steps := s2.epoch_episode_steps ++ [es]
                episode_reward := s2.episode_reward.set num 0
                episode_step := s2.episode_step.set num 0
                epoch_episodes := s2.epoch_episodes + 1
                episodes := s2.episodes + 1 }
    else s2
  (s3, tr)

/-- Bookkeeping for one whole batch of results (lines 744-791):
`self.total_steps += n_steps` (line 745) followed by the serial per-result
loop in ascending position within `ret`. Returns the new state and the list
of transitions stored. -/
def processBatch (horizon : ℕ) (reward_scale : ℚ) (s : AlgState)
    (rets : List CollectResult) : AlgState × List StoredTransition :=
  let s0 : AlgState := { s with total_steps := s.total_steps + rets.length }
  rets.foldl
    (fun (acc : AlgState × List StoredTransition) r =>
      let (s2, tr) := processResult horizon reward_scale acc.1 r
      (s2, acc.2 ++ [tr]))
    (s0, [])

/-! ### Post-warm-up statistics reset (`learn`, lines 594-611) -/

/-- The reset that follows the initial pure-exploration phase (lines 602-605):

`self.episodes = 0`
`self.total_steps = 0`
`self.episode_rew_history = deque(maxlen=100)`

No other attribute is touched; in particular the per-environment
`episode_step` and `episode_reward` keep their warm-up values. -/
def resetTotalStatistics (s : AlgState) : AlgState :=
  { s with episodes := 0, total_steps := 0, episode_rew_history := [] }

/-- The epoch-specific reset at the top of every epoch (lines 608-611). -/
def resetEpochStatistics (s : AlgState) : AlgState :=
  { s with epoch_episodes := 0, epoch_episode_steps := [], epoch_episode_rewards := [] }

/-! ### Evaluation runner (`_evaluate`, lines 953-1114)

Inside the episode loop `for i in range(self.nb_eval_episodes)` (line 996),
`_evaluate` calls `self._get_obs(eval_obs)` (line 999, again line 1024),
`self._add_fingerprint(...)` (lines 1002, 1062) and `self._policy(...)`
(line 1015). No method with any of these three names is defined in class
`OffPolicyRLAlgorithm`, and no instance attribute with these names is
assigned anywhere in the source: the training path uses the module-level
imports `get_obs` / `add_fingerprint` (lines 28-29) and
`policy_tf.get_action` instead. Python resolves such a name at call time by
attribute lookup on the instance, so with a positive episode count the first
iteration of the episode loop raises `AttributeError` at line 999, before
any evaluation step executes.
-/

/-- The method names defined in class `OffPolicyRLAlgorithm` (the `def`
statements of its body: lines 255, 433, 471, 532, 676, 686, 696, 794, 925,
953, 1116, 1163). -/
def classMethods : List String :=
  ["__init__", "setup_model", "_store_transition", "learn", "save", "load",
   "_collect_samples", "_collect_sample", "_train", "_evaluate",
   "_log_training", "_log_eval"]

/-- The instance attribute names assigned on `self` anywhere in the class
(in `__init__`, lines 337-431; `setup_model`, lines 435-469; `learn`,
line 564). -/
def instanceAttributes : List String :=
  ["policy", "env_name", "eval_env", "nb_train_steps", "nb_rollout_steps",
   "nb_eval_episodes", "actor_update_freq", "meta_update_freq",
   "reward_scale", "render", "render_eval", "eval_deterministic", "num_cpus",
   "verbose", "policy_kwargs", "env", "obs", "all_obs", "horizon", "graph",
   "policy_tf", "sess", "summary", "episode_step", "episodes", "total_steps",
   "epoch_episode_steps", "epoch_episode_rewards", "epoch_episodes", "epoch",
   "episode_rew_history", "episode_reward", "rew_ph", "rew_history_ph",
   "eval_rew_ph", "eval_success_ph", "saver", "observation_space",
   "trainable_vars"]

/-- Python attribute lookup `self.<name>` on an `OffPolicyRLAlgorithm`
instance: succeeds iff the name is an assigned instance attribute or a class
method, and raises `AttributeError` otherwise. -/
def lookupAttr (name : String) : Except String Unit :=
  if name ∈ instanceAttributes ∨ name ∈ classMethods then Except.ok ()
  else Except.error ("AttributeError: " ++ name)

/-- The evaluation operation `_evaluate` (lines 953-1114), embedded to the
depth its own control flow allows. With `nb_eval_episodes = 0` the episode
loop body never runs (line 996) and the call returns. With a positive
episode count the first loop iteration executes `eval_obs = env.reset()`
(line 998) and then, in program order, looks up `self._get_obs` (line 999),
`self._add_fingerprint` (line 1002) and `self._policy` (line 1015); the
first failing lookup aborts the whole call, so nothing past line 999 is
reachable and no per-step embedding beyond these lookups is meaningful. On
the path where every lookup succeeds, the model reports the episode count
the loop was asked to run. -/
def evaluateRun (nb_eval_episodes : ℕ) : Except String ℕ :=
  if nb_eval_episodes = 0 then Except.ok 0
  else do
    _ ← lookupAttr "_get_obs"
    _ ← lookupAttr "_add_fingerprint"
    _ ← lookupAttr "_policy"
    Except.ok nb_eval_episodes

/-! ## Theorems -/

/-- C1: the claim states that one rollout call with `run_steps = 4` and
`num_parallel_envs = 1` partitions the work into batches of size at most 1
summing to 4, indexes only existing environment slots, and ends with
`total_steps` increased by exactly 4. The batch sizes actually computed by
`_collect_samples` (lines 720-723) for these inputs are `[1, 1, 1, 4]`: they
sum to 7 (so `total_steps` would grow by 7, not 4), and the final batch has
size 4 > 1, so its dispatch loop `for env_num in range(n_steps)` (line 737)
indexes environment slots 1-3 that do not exist. -/
theorem c1_partition_bug :
    batchSizes 4 1 = [1, 1, 1, 4] ∧
    (batchSizes 4 1).sum = 7 ∧
    (batchSizes 4 1).sum ≠ 4 ∧
    ¬((4 : ℤ) ≤ 1) := by
  refine ⟨by decide, by decide, by decide, by decide⟩

/-- C8: the claim states that when no horizon attribute is discoverable the
constructor falls back to the default 500. The source (lines 389-397) instead
raises `ValueError("Horizon attribute not found.")`; moreover nothing enforces
`0 < horizon` (an environment advertising `horizon = 0` is accepted). -/
theorem c8_horizon_no_default :
    resolveHorizon none none none =
      Except.error "Horizon attribute not found." ∧
    (∀ h : ℤ, resolveHorizon none none none ≠ Except.ok h) ∧
    resolveHorizon (some 0) none none = Except.ok 0 := by
  refine ⟨rfl, fun h hc => by simp [resolveHorizon] at hc, rfl⟩

/-- C9: constructions with `num_parallel_envs > nb_rollout_steps` fail the
assertion at line 330 before any environment is created (the first
`create_env` call is at line 340), and constructions with
`num_parallel_envs ≤ nb_rollout_steps` raise no such error. -/
theorem c9_parallelism_check (num_cpus nb_rollout_steps : ℕ) :
    (nb_rollout_steps < num_cpus →
      algInit num_cpus nb_rollout_steps =
        Except.error
          "num_cpus must be less than or equal to nb_rollout_steps") ∧
    (num_cpus ≤ nb_rollout_steps →
      algInit num_cpus nb_rollout_steps = Except.ok (List.range num_cpus)) := by
  constructor
  · intro h
    simp [algInit, Nat.not_le.mpr h]
  · intro h
    simp [algInit, h]

/-- Witness for C9 at `num_cpus = 3`, `nb_rollout_steps = 2` and at
`num_cpus = 2`, `nb_rollout_steps = 4`. -/
theorem c9_parallelism_check_witness :
    algInit 3 2 =
      Except.error "num_cpus must be less than or equal to nb_rollout_steps" ∧
    algInit 2 4 = Except.ok (List.range 2) :=
  ⟨(c9_parallelism_check 3 2).1 (by decide),
   (c9_parallelism_check 2 4).2 (by decide)⟩

/-- C2: the scheduled-update decision of `_train` (lines 931-951) sets
`update_actor` true iff `(total_steps + t_train) % actor_update_freq == 0`
(for flat and hierarchical policies alike); for a hierarchical policy it sets
`update_meta` true iff `(total_steps + t_train) % meta_update_freq == 0` and
`update_meta_actor` true iff
`(total_steps + t_train) % (actor_update_freq * meta_update_freq) == 0`;
whenever `update_meta_actor` is true, `update_actor` and `update_meta` are
both true; and one `policy_tf.update` call (which always updates the critic)
is issued on every one of the `nb_train_steps` training steps. -/
theorem c2_update_scheduling (total_steps t_train nb_train_steps A M : ℕ)
    (hA : 1 ≤ A) (hM : 1 ≤ M) :
    (∀ hier : Bool,
      ((decideUpdates total_steps t_train A M hier).update_actor = true ↔
        (total_steps + t_train) % A = 0)) ∧
    ((decideUpdates total_steps t_train A M true).update_meta = some true ↔
      (total_steps + t_train) % M = 0) ∧
    ((decideUpdates total_steps t_train A M true).update_meta_actor = some true ↔
      (total_steps + t_train) % (A * M) = 0) ∧
    ((decideUpdates total_steps t_train A M true).update_meta_actor = some true →
      (decideUpdates total_steps t_train A M true).update_actor = true ∧
      (decideUpdates total_steps t_train A M true).update_meta = some true) ∧
    (∀ hier : Bool,
      (trainCalls total_steps nb_train_steps A M hier).length = nb_train_steps) := by
  have hMA : M * A = A * M := Nat.mul_comm M A
  refine ⟨?_, ?_, ?_, ?_, ?_⟩
  · intro hier
    cases hier <;> simp [decideUpdates]
  · simp [decideUpdates]
  · simp [decideUpdates, hMA]
  · intro hmeta
    have hdvd : (total_steps + t_train) % (M * A) = 0 := by
      have := hmeta
      simpa [decideUpdates] using this
    have hdvd2 : (M * A) ∣ (total_steps + t_train) :=
      Nat.dvd_of_mod_eq_zero hdvd
    have hAdvd : A ∣ (total_steps + t_train) :=
      dvd_trans (dvd_mul_left A M) hdvd2
    have hMdvd : M ∣ (total_steps + t_train) :=
      dvd_trans (dvd_mul_right M A) hdvd2
    constructor
    · simp [decideUpdates, Nat.mod_eq_zero_of_dvd hAdvd]
    · simp [decideUpdates, Nat.mod_eq_zero_of_dvd hMdvd]
  · intro hier
    simp [trainCalls]

/-- Witness for C2 at `total_steps = 5`, `t_train = 1`, `nb_train_steps = 4`,
`actor_update_freq = 2`, `meta_update_freq = 3`. -/
theorem c2_update_scheduling_witness :
    ((decideUpdates 5 1 2 3 true).update_actor = true ↔ (5 + 1) % 2 = 0) ∧
    (trainCalls 5 4 2 3 true).length = 4 :=
  ⟨(c2_update_scheduling 5 1 4 2 3 (by decide) (by decide)).1 true,
   (c2_update_scheduling 5 1 4 2 3 (by decide) (by decide)).2.2.2.2 true⟩

/-- C6: the end-of-epoch interval check (lines 629-631 for evaluation, 669-671
for saving) fires iff the elapsed step count since the running increment
reaches the interval; on firing the increment advances by exactly the
interval (never snapping to the elapsed count), and otherwise it is
unchanged. In the claim scenario (`eval_interval = 100`, `total_steps`
crossing from 95 to 105 within one cycle) the single end-of-epoch check at
`total_steps = 105` fires once, the increment advances from 0 to 100 — so the
next firing requires `total_steps ≥ 200`, not 105 — and an immediate
re-check at 105 does not fire again. -/
theorem c6_interval_threshold :
    (∀ total incr interval : ℤ,
      ((intervalCheck total incr interval).1 = true ↔ interval ≤ total - incr) ∧
      ((intervalCheck total incr interval).1 = true →
        (intervalCheck total incr interval).2 = incr + interval) ∧
      ((intervalCheck total incr interval).1 = false →
        (intervalCheck total incr interval).2 = incr)) ∧
    intervalCheck 95 0 100 = (false, 0) ∧
    intervalCheck 105 0 100 = (true, 100) ∧
    (100 : ℤ) + 100 = 200 ∧
    intervalCheck 105 100 100 = (false, 100) := by
  refine ⟨?_, by decide, by decide, by decide, by decide⟩
  intro total incr interval
  by_cases h : total - incr ≥ interval
  · simp [intervalCheck, h]
  · simp [intervalCheck, h]

/-- Witness for C6: the generic part applied at `total = 105`, `incr = 0`,
`interval = 100`, discharging the firing hypothesis there. -/
theorem c6_interval_threshold_witness :
    (intervalCheck 105 0 100).2 = 0 + 100 :=
  ((c6_interval_threshold.1 105 0 100).2.1) (by decide)

/-- C3: the `is_final_step` flag stored by `_collect_samples` (line 773,
`is_final_step=(self.episode_step[num] >= self.horizon - 1)`, evaluated after
the increment of line 757) is true iff the episode step count at store time
reaches `horizon - 1`: it is false while the count is strictly below
`horizon - 1`, true when the count equals `horizon - 1`, and it does not
depend on the done flag `terminal1` reported by the environment. -/
theorem c3_is_final_step_boundary (horizon : ℕ) (hH : 1 ≤ horizon)
    (reward_scale : ℚ) (s : AlgState) (r : CollectResult) :
    ((processResult horizon reward_scale s r).2.is_final_step = true ↔
      horizon - 1 ≤ s.episode_step.getD r.env_num 0 + 1) ∧
    (s.episode_step.getD r.env_num 0 + 1 < horizon - 1 →
      (processResult horizon reward_scale s r).2.is_final_step = false) ∧
    (s.episode_step.getD r.env_num 0 + 1 = horizon - 1 →
      (processResult horizon reward_scale s r).2.is_final_step = true) ∧
    (∀ d : Bool,
      (processResult horizon reward_scale s
        { r with done := d }).2.is_final_step =
      (processResult horizon reward_scale s r).2.is_final_step) := by
  have key : (processResult horizon reward_scale s r).2.is_final_step =
      decide ((s.episode_step.getD r.env_num 0 + 1 : ℤ) ≥
        (horizon : ℤ) - 1) := rfl
  refine ⟨?_, ?_, ?_, ?_⟩
  · rw [key]
    rw [decide_eq_true_eq]
    omega
  · intro hlt
    rw [key, decide_eq_false_iff_not]
    omega
  · intro heq
    rw [key, decide_eq_true_eq]
    omega
  · intro d
    rfl

/-- Concrete fixture: a one-environment state mid-episode. -/
def sampleState : AlgState :=
  { obs := [[10]]
    all_obs := [none]
    episode_step := [1]
    episode_reward := [2]
    epoch_episode_steps := []
    epoch_episode_rewards := []
    episode_rew_history := []
    epoch_episodes := 0
    episodes := 0
    total_steps := 5 }

/-- Concrete fixture: a collection result reporting a finished episode. -/
def sampleDoneResult : CollectResult :=
  { env_num := 0
    context := none
    action := []
    reward := 3
    done := true
    obs_terminal := [7]
    obs_reset := [9]
    all_obs_terminal := none
    all_obs_reset := none }

/-- Witness for C3 at `horizon = 2` on the concrete fixture. -/
theorem c3_is_final_step_boundary_witness :
    ((processResult 2 1 sampleState sampleDoneResult).2.is_final_step = true ↔
      2 - 1 ≤ sampleState.episode_step.getD sampleDoneResult.env_num 0 + 1) :=
  (c3_is_final_step_boundary 2 (by decide) 1 sampleState sampleDoneResult).1

/-- C4: when a batch result reports `done = true`, the bookkeeping of
`_collect_samples` (lines 756-791) stores a transition whose `obs1` is the
terminal observation (`obs[0]`, line 770) and not the reset observation,
appends the finished episode cumulative reward and length to the epoch
accumulators (`epoch_episode_rewards`, `epoch_episode_steps`) and the rolling
100-episode history, resets the episode step and reward of that slot to zero,
increments both `epoch_episodes` and `episodes` by one, and makes the reset
observation (`obs[1]`, line 780) the next stored observation of the slot. -/
theorem c4_episode_done_bookkeeping (horizon : ℕ) (reward_scale : ℚ)
    (s : AlgState) (r : CollectResult) (hdone : r.done = true)
    (h1 : r.env_num < s.episode_step.length)
    (h2 : r.env_num < s.episode_reward.length)
    (h3 : r.env_num < s.obs.length) :
    (processResult horizon reward_scale s r).2.obs1 = r.obs_terminal ∧
    (processResult horizon reward_scale s r).2.terminal1 = true ∧
    (processResult horizon reward_scale s r).1.epoch_episode_rewards =
      s.epoch_episode_rewards ++
        [s.episode_reward.getD r.env_num 0 + r.reward] ∧
    (processResult horizon reward_scale s r).1.epoch_episode_steps =
      s.epoch_episode_steps ++ [s.episode_step.getD r.env_num 0 + 1] ∧
    (processResult horizon reward_scale s r).1.episode_rew_history =
      dequeAppend s.episode_rew_history
        (s.episode_reward.getD r.env_num 0 + r.reward) ∧
    (processResult horizon reward_scale s r).1.episode_step.getD
      r.env_num 0 = 0 ∧
    (processResult horizon reward_scale s r).1.episode_reward.getD
      r.env_num 0 = 0 ∧
    (processResult horizon reward_scale s r).1.epoch_episodes =
      s.epoch_episodes + 1 ∧
    (processResult horizon reward_scale s r).1.episodes = s.episodes + 1 ∧
    (processResult horizon reward_scale s r).1.obs.getD r.env_num [] =
      r.obs_reset := by
  refine ⟨rfl, ?_, ?_, ?_, ?_, ?_, ?_, ?_, ?_, ?_⟩
  · simp [processResult, hdone]
  · simp [processResult, hdone]
  · simp [processResult, hdone]
  · simp [processResult, hdone]
  · simp [processResult, hdone, List.getElem?_set_self, h1]
  · simp [processResult, hdone, List.getElem?_set_self, h2]
  · simp [processResult, hdone]
  · simp [processResult, hdone]
  · simp [processResult, hdone, List.getElem?_set_self, h3]

/-- Witness for C4 on the concrete fixture (`horizon = 2`,
`reward_scale = 1`). -/
theorem c4_episode_done_bookkeeping_witness :
    (processResult 2 1 sampleState sampleDoneResult).2.obs1 =
      sampleDoneResult.obs_terminal ∧
    (processResult 2 1 sampleState sampleDoneResult).1.episodes =
      sampleState.episodes + 1 :=
  ⟨(c4_episode_done_bookkeeping 2 1 sampleState sampleDoneResult rfl
      (by decide) (by decide) (by decide)).1,
   (c4_episode_done_bookkeeping 2 1 sampleState sampleDoneResult rfl
      (by decide) (by decide) (by decide)).2.2.2.2.2.2.2.2.1⟩

/-- C5: the claim states that on a done step with fingerprinting enabled the
reset observation is itself fingerprinted while the terminal observation,
fingerprinted once, is stored as `obs1`. In the source (lines 901-916) the
second `add_fingerprint` call inside the `if done:` block (line 910) is
applied to `obs` — the already-fingerprinted terminal observation — instead
of to `reset_obs`: on terminal observation `[1]`, reset observation `[2]`,
`steps = 3`, `total_steps = 10`, the returned pair carries the terminal
observation with the fingerprint appended twice and the reset observation
with no fingerprint at all. -/
theorem c5_reset_fingerprint_bug :
    collectSampleObs [1] [2] 3 10 true true =
      ([1] ++ fingerprintVec 3 10 ++ fingerprintVec 3 10, some [2]) ∧
    (collectSampleObs [1] [2] 3 10 true true).2 = some [2] ∧
    ([2] : Obs) ≠ add_fingerprint [2] 3 10 true ∧
    (collectSampleObs [1] [2] 3 10 true true).1 ≠
      add_fingerprint [1] 3 10 true := by
  refine ⟨rfl, rfl, ?_, ?_⟩
  · intro h
    have hl := congrArg List.length h
    simp [add_fingerprint, fingerprintVec] at hl
  · intro h
    have hl := congrArg List.length h
    simp [collectSampleObs, add_fingerprint, fingerprintVec] at hl

/-- Concrete fixture: the counter state at the end of the warm-up phase, with
an episode still in progress on slot 0 (3 warm-up steps, reward 5). -/
def warmupEndState : AlgState :=
  { obs := [[0]]
    all_obs := [none]
    episode_step := [3]
    episode_reward := [5]
    epoch_episode_steps := [2, 2]
    epoch_episode_rewards := [1, 1]
    episode_rew_history := [7]
    epoch_episodes := 2
    episodes := 2
    total_steps := 10 }

/-- Concrete fixture: the first post-warm-up collection result, a single step
with reward 1 that finishes the in-progress episode. -/
def firstEpochResult : CollectResult :=
  { env_num := 0
    context := none
    action := []
    reward := 1
    done := true
    obs_terminal := [1]
    obs_reset := [2]
    all_obs_terminal := none
    all_obs_reset := none }

/-- C10 counterexample: the post-warm-up reset (lines 602-605) zeroes
`total_steps`, `episodes` and the reward history, but not the per-environment
`episode_step`/`episode_reward` (which keep their warm-up values 3 and 5
here). After a single post-warm-up step that finishes the episode, the
reported epoch statistics are an episode length of 4 and an episode return of
6 while only 1 step was collected since the reset: 3 warm-up steps and a
warm-up reward of 5 count toward reported training statistics, contradicting
the claim that warm-up steps never count toward any reported training
statistic. -/
theorem c10_warmup_counterexample :
    (resetEpochStatistics (resetTotalStatistics warmupEndState)).episode_step
      = [3] ∧
    (resetEpochStatistics (resetTotalStatistics warmupEndState)).episode_reward
      = [5] ∧
    (processBatch 500 1 (resetEpochStatistics
        (resetTotalStatistics warmupEndState))
      [firstEpochResult]).1.total_steps = 1 ∧
    (processBatch 500 1 (resetEpochStatistics
        (resetTotalStatistics warmupEndState))
      [firstEpochResult]).1.epoch_episode_steps = [4] ∧
    (processBatch 500 1 (resetEpochStatistics
        (resetTotalStatistics warmupEndState))
      [firstEpochResult]).1.epoch_episode_rewards = [6] ∧
    ¬((4 : ℕ) ≤ 1) := by
  refine ⟨rfl, rfl, rfl, by decide, ?_, by decide⟩
  simp [processBatch, processResult, resetEpochStatistics,
    resetTotalStatistics, warmupEndState, firstEpochResult]
  norm_num

/-- C10 amended: immediately after the initial pure-exploration phase,
`total_steps`, `episodes` and the 100-episode reward history are reset to
zero before the first epoch begins (lines 602-605), so warm-up steps never
count toward the `total_timesteps` stop condition (the check of line 616
compares against a counter restarted at 0); the per-environment
`episode_step` and `episode_reward` are left untouched, so an episode in
progress at the end of warm-up carries its warm-up steps and rewards into the
episode statistics reported for the first epoch. -/
theorem c10_warmup_reset (s : AlgState) (total_timesteps : ℕ) :
    (resetTotalStatistics s).total_steps = 0 ∧
    (resetTotalStatistics s).episodes = 0 ∧
    (resetTotalStatistics s).episode_rew_history = [] ∧
    (resetTotalStatistics s).episode_step = s.episode_step ∧
    (resetTotalStatistics s).episode_reward = s.episode_reward ∧
    (total_timesteps ≤ (resetTotalStatistics s).total_steps ↔
      total_timesteps = 0) := by
  refine ⟨rfl, rfl, rfl, rfl, rfl, ?_⟩
  simp [resetTotalStatistics, Nat.le_zero]

/-- C7: the claim describes the intended evaluation behavior (run
`nb_eval_episodes` full episodes, noise iff `eval_deterministic` is false,
transitions stored with `evaluate=true`), and the docstring of `_evaluate`
(lines 954-977) promises the same, but `_evaluate` cannot run at all: the
names `_get_obs`, `_add_fingerprint` and `_policy` that its episode loop
calls on `self` (lines 999, 1002, 1015) are neither methods of
`OffPolicyRLAlgorithm` nor instance attributes assigned anywhere in the
source, so for any positive episode count — the default is 50 — the call
raises `AttributeError` at line 999, before the first evaluation step, and
not a single episode, action selection or transition store ever happens.
With `nb_eval_episodes = 0` the loop body is never entered and no error is
raised, but no episode runs then either. -/
theorem c7_evaluate_attribute_error :
    lookupAttr "_get_obs" = Except.error "AttributeError: _get_obs" ∧
    lookupAttr "_add_fingerprint" =
      Except.error "AttributeError: _add_fingerprint" ∧
    lookupAttr "_policy" = Except.error "AttributeError: _policy" ∧
    evaluateRun 50 = Except.error "AttributeError: _get_obs" ∧
    evaluateRun 1 = Except.error "AttributeError: _get_obs" ∧
    evaluateRun 50 ≠ Except.ok 50 ∧
    evaluateRun 0 = Except.ok 0 := by
  refine ⟨rfl, rfl, rfl, rfl, rfl, ?_, rfl⟩
  have h50 : evaluateRun 50 = Except.error "AttributeError: _get_obs" := rfl
  rw [h50]
  simp

end OffPolicy
